import Mathlib

/-!
Verification development for the news-intelligence pipeline.

Shallow embedding of the two core modules:
  * `src/cost_manager.py`  — pricing tiers, daily budget limits, request validation;
  * `src/ai_analyzer.py`   — the three LLM-backed analysis sub-tasks, the per-article
    analyzer, and the batch coordinator.

Python floats are modelled as `ℚ`, Python ints as `ℤ`/`ℕ`, Python dicts as structures
(with `Option` fields where a key may be absent), and raised exceptions as
`Except String`.  External collaborators (the moderation endpoint, the chat-completion
endpoint, the tiktoken encoding, the JSON parser, the SHA-256 digest and the wall
clock) are parameters gathered in an `Env` record; everything else is translated
directly from the source.
-/

namespace NewsIntel

/-! ## Cost model — `src/cost_manager.py` -/

/-- `CostManager.__init__`: the mutable session counters. -/
structure CostState where
  current_session_cost : ℚ
  articles_processed : ℕ
deriving DecidableEq

/-- The `self.pricing` dictionary (`cost_manager.py` lines 15-19), as a lookup.
`"built_in_ai"` maps to dollars per 1000 articles, `"byok"` likewise,
`"free_tier_limit"` to the free-article count. -/
def pricing_lookup : String → Option ℚ := fun k =>
  if k = "built_in_ai" then some 6.0
  else if k = "byok" then some 2.0
  else if k = "free_tier_limit" then some 50
  else none

/-- The free-tier threshold `self.pricing["free_tier_limit"]`. -/
def free_tier_limit : ℤ := 50

/-- Python truthiness of the optional `user_api_key` argument: `elif user_api_key:`
is false for `None` and for the empty string. -/
def truthy_key : Option String → Bool
  | none => false
  | some s => decide (s ≠ "")

/-- The dictionary returned by `CostManager.calculate_pricing_tier`
(`cost_manager.py` lines 59-67). -/
structure PricingDecision where
  tier : String
  description : String
  cost_per_article : ℚ
  cost_per_1000 : ℚ
  total_cost : ℚ
  articles_count : ℤ
  currency : String
deriving DecidableEq

/-- Line 63 of `cost_manager.py`:
`self.pricing.get(tier, 0) if tier in self.pricing else cost_per_article * 1000`.
The local `cost_per_article` is passed as an `Option`: `none` models the branch
(the free tier) in which the Python local was never assigned, so evaluating
`cost_per_article * 1000` raises `NameError`. -/
def cost_per_1000_entry (tier : String) (cost_per_article_local : Option ℚ) :
    Except String ℚ :=
  match pricing_lookup tier with
  | some v => Except.ok v
  | none =>
    match cost_per_article_local with
    | some c => Except.ok (c * 1000)
    | none => Except.error "NameError: name cost_per_article is not defined"

/-- `CostManager.calculate_pricing_tier` (`cost_manager.py` lines 23-67).
Each branch yields (the local `cost_per_article` if it was assigned, `total_cost`,
`tier`, `description`); the returned dict guards the `cost_per_article` entry with
`'cost_per_article' in locals()` (line 62, modelled by `Option.getD 0`) but the
`cost_per_1000` entry does not (line 63), so the free-tier branch raises. -/
def calculate_pricing_tier (enable_ai : Bool) (user_api_key : Option String)
    (articles_count : ℤ) : Except String PricingDecision :=
  let branch : Option ℚ × ℚ × String × String :=
    if !enable_ai then
      let cost_per_article : ℚ := 0.001
      (some cost_per_article, (articles_count : ℚ) * cost_per_article,
       "basic", "Basic news aggregation (no AI analysis)")
    else if truthy_key user_api_key then
      let cost_per_article : ℚ := 2.0 / 1000
      (some cost_per_article, (articles_count : ℚ) * cost_per_article,
       "byok", "Enterprise BYOK tier (user\x27s OpenAI API key)")
    else if articles_count ≤ free_tier_limit then
      (none, 0.0, "free",
       "Free tier (" ++ toString articles_count ++ "/" ++ toString free_tier_limit
         ++ " articles)")
    else
      let free_articles := free_tier_limit
      let paid_articles := articles_count - free_articles
      let cost_per_article : ℚ := 6.0 / 1000
      (some cost_per_article, (paid_articles : ℚ) * cost_per_article,
       "built_in_ai",
       "Built-in AI tier (" ++ toString free_articles ++ " free + "
         ++ toString paid_articles ++ " paid articles)")
  match branch with
  | (cpa?, total_cost, tier, description) =>
    match cost_per_1000_entry tier cpa? with
    | Except.error e => Except.error e
    | Except.ok cp1000 =>
      Except.ok
        { tier, description, cost_per_article := cpa?.getD 0,
          cost_per_1000 := cp1000, total_cost, articles_count,
          currency := "USD" }

/-- The dictionary returned by `CostManager.check_daily_limits`
(`cost_manager.py` lines 80-86). -/
structure DailyLimits where
  daily_limit : ℚ
  current_spend : ℚ
  remaining_budget : ℚ
  articles_remaining : ℤ
  limit_exceeded : Bool
deriving DecidableEq

/-- `CostManager.check_daily_limits` (`cost_manager.py` lines 69-86).
The daily limit comes from the `DAILY_SPEND_LIMIT` environment variable and is a
parameter here.  `int(remaining_budget / (6.0/1000))` truncates toward zero, which
on the non-negative `remaining_budget` is the floor. -/
def check_daily_limits (daily_limit : ℚ) (st : CostState) : DailyLimits :=
  let current_daily_spend := st.current_session_cost
  let remaining_budget := max 0 (daily_limit - current_daily_spend)
  let articles_remaining : ℤ := ⌊remaining_budget / (6.0 / 1000)⌋
  { daily_limit, current_spend := current_daily_spend, remaining_budget,
    articles_remaining, limit_exceeded := decide (daily_limit ≤ current_daily_spend) }

/-- The dictionary returned by `CostManager.validate_request`
(`cost_manager.py` lines 101-123); keys that appear only on some paths are
`Option` fields. -/
structure ValidateOutcome where
  valid : Bool
  error : Option String
  pricing : PricingDecision
  limits : Option DailyLimits
  suggested_max_articles : Option ℤ
  estimated_cost : Option ℚ
deriving DecidableEq

/-- `CostManager.validate_request` (`cost_manager.py` lines 88-123).  The Python
error strings interpolate the amounts with `:.2f`; decimal formatting is abstracted
to `toString`.  Any exception from `calculate_pricing_tier` propagates. -/
def validate_request (daily_limit : ℚ) (st : CostState) (enable_ai : Bool)
    (user_api_key : Option String) (max_articles : ℤ) :
    Except String ValidateOutcome :=
  match calculate_pricing_tier enable_ai user_api_key max_articles with
  | Except.error e => Except.error e
  | Except.ok pricing_info =>
    if pricing_info.tier = "built_in_ai" then
      let limits := check_daily_limits daily_limit st
      if limits.limit_exceeded then
        Except.ok
          { valid := false,
            error := some ("Daily spending limit of $" ++ toString limits.daily_limit
              ++ " exceeded. Current spend: $" ++ toString limits.current_spend),
            pricing := pricing_info, limits := some limits,
            suggested_max_articles := none, estimated_cost := none }
      else if limits.articles_remaining < max_articles then
        let suggested_articles := limits.articles_remaining
        Except.ok
          { valid := false,
            error := some ("Request for " ++ toString max_articles
              ++ " articles exceeds remaining daily budget. Maximum allowed: "
              ++ toString suggested_articles),
            pricing := pricing_info, limits := some limits,
            suggested_max_articles := some suggested_articles, estimated_cost := none }
      else
        Except.ok
          { valid := true, error := none, pricing := pricing_info,
            limits := none, suggested_max_articles := none,
            estimated_cost := some pricing_info.total_cost }
    else
      Except.ok
        { valid := true, error := none, pricing := pricing_info,
          limits := none, suggested_max_articles := none,
          estimated_cost := some pricing_info.total_cost }

/-! ## Analysis engine — `src/ai_analyzer.py`

External collaborators are gathered in `Env`; the rest is translated directly.
Each sub-task additionally returns the list of external calls it made
(`Event`s), in order, so that "moderation happens before completion" is a
statement about the embedding. -/

/-- The result object of `client.chat.completions.create` as the analyzer
consumes it: `choices[0].message.content` (`text`) and
`usage.completion_tokens` when `response.usage` is present (`usage`). -/
structure CompletionResponse where
  text : String
  usage : Option ℕ
deriving DecidableEq

/-- Fields of a parsed sentiment JSON block (`ai_analyzer.py` lines 86-91). -/
structure SentimentPayload where
  score : ℚ
  label : String
  confidence : ℚ
  reasoning : String
deriving DecidableEq

/-- Fields of a parsed summary JSON block (`ai_analyzer.py` lines 151-154). -/
structure SummaryPayload where
  summary : String
  key_points : List String
deriving DecidableEq

/-- The `entities` object of a classification result (`ai_analyzer.py` line 246). -/
structure Entities where
  people : List String
  companies : List String
  locations : List String
  events : List String
deriving DecidableEq

/-- Fields of a parsed classification JSON block (`ai_analyzer.py` lines 211-215). -/
structure ClassifyPayload where
  categories : List String
  entities : Entities
  keywords : List String
deriving DecidableEq

/-- The external collaborators of `AINewsAnalyzer`: the moderation endpoint
(`moderateRaw text = none` models a raised exception inside
`moderate_content`, which that method maps to `flagged = False`), the
completion endpoint (`Except.error` models any raised exception, including an
empty `choices` list), the tiktoken encoding, the `re.search`/`json.loads`
extraction of the first JSON block for each task, the SHA-256 hex digest, and
`datetime.now().isoformat()`. -/
structure Env where
  model : String
  moderateRaw : String → Option Bool
  complete : String → Except String CompletionResponse
  encode : String → List ℕ
  decode : List ℕ → String
  parseSentiment : String → Option SentimentPayload
  parseSummary : String → Option SummaryPayload
  parseClassify : String → Option ClassifyPayload
  hash : String → String
  now : String

/-- One external call made by a sub-task, in program order. -/
inductive Event where
  | moderation (text : String)
  | completion (prompt : String)
deriving DecidableEq

/-- True on moderation events. -/
def Event.isModeration : Event → Bool
  | Event.moderation _ => true
  | Event.completion _ => false

/-- True on completion events. -/
def Event.isCompletion : Event → Bool
  | Event.moderation _ => false
  | Event.completion _ => true

/-- `AINewsAnalyzer.count_tokens` (`ai_analyzer.py` lines 30-32). -/
def count_tokens (env : Env) (text : String) : ℕ :=
  (env.encode text).length

/-- The `self.pricing` table of `AINewsAnalyzer` (`ai_analyzer.py` lines 24-28):
per-1K-token input/output prices keyed by model name. -/
def model_pricing : String → Option (ℚ × ℚ) := fun m =>
  if m = "gpt-3.5-turbo" then some (0.0005, 0.0015)
  else if m = "gpt-4" then some (0.01, 0.03)
  else if m = "gpt-4-turbo" then some (0.01, 0.03)
  else none

/-- `AINewsAnalyzer.calculate_cost` (`ai_analyzer.py` lines 34-42):
unknown model → 0, otherwise `(in/1000)*input_price + (out/1000)*output_price`. -/
def calculate_cost (model : String) (input_tokens output_tokens : ℕ) : ℚ :=
  match model_pricing model with
  | none => 0.0
  | some price_config =>
    (input_tokens : ℚ) / 1000 * price_config.1
      + (output_tokens : ℚ) / 1000 * price_config.2

/-- `AINewsAnalyzer.truncate_text` (`ai_analyzer.py` lines 44-51). -/
def truncate_text (env : Env) (text : String) (max_tokens : ℕ) : String :=
  let tokens := env.encode text
  if tokens.length ≤ max_tokens then text
  else env.decode (tokens.take max_tokens)

/-- `AINewsAnalyzer.moderate_content` (`ai_analyzer.py` lines 53-66): only the
`flagged` bit is consumed downstream; a raised exception yields `flagged = False`. -/
def moderate_content (env : Env) (text : String) : Bool :=
  (env.moderateRaw text).getD false

/-- The dictionary returned by `AINewsAnalyzer.analyze_sentiment`.  The
moderation-flagged branch (`ai_analyzer.py` lines 74-80) has no `"cost"` key,
hence `cost : Option ℚ` with `none` for an absent key. -/
structure SentimentResult where
  score : ℚ
  label : String
  confidence : ℚ
  reasoning : String
  cost : Option ℚ
  moderation_flagged : Bool
deriving DecidableEq

/-- The sentiment prompt (`ai_analyzer.py` lines 82-92). -/
def sentiment_prompt (env : Env) (text : String) : String :=
  "Analyze the sentiment of this news article text. Provide your analysis in JSON format:\n\nText: \""
    ++ truncate_text env text 2000
    ++ "\"\n\nReturn JSON with:\n- score: float between -1.0 (very negative) and 1.0 (very positive)\n- label: \"positive\", \"negative\", or \"neutral\"\n- confidence: float between 0.0 and 1.0\n- reasoning: brief explanation of the sentiment\n\nJSON:"

/-- `AINewsAnalyzer.analyze_sentiment` (`ai_analyzer.py` lines 68-128), paired
with its trace of external calls. -/
def analyze_sentiment (env : Env) (text : String) :
    SentimentResult × List Event :=
  let flagged := moderate_content env text
  if flagged then
    ({ score := 0.0, label := "neutral", confidence := 0.0,
       reasoning := "Content flagged by moderation", cost := none,
       moderation_flagged := true },
     [Event.moderation text])
  else
    let prompt := sentiment_prompt env text
    let input_tokens := count_tokens env prompt
    match env.complete prompt with
    | Except.error e =>
      ({ score := 0.0, label := "neutral", confidence := 0.0,
         reasoning := "Analysis failed: " ++ e, cost := some 0.0,
         moderation_flagged := false },
       [Event.moderation text, Event.completion prompt])
    | Except.ok response =>
      let output_tokens := response.usage.getD 0
      let cost := calculate_cost env.model input_tokens output_tokens
      let result_text := response.text.trim
      match env.parseSentiment result_text with
      | some d =>
        ({ score := d.score, label := d.label, confidence := d.confidence,
           reasoning := d.reasoning, cost := some cost,
           moderation_flagged := false },
         [Event.moderation text, Event.completion prompt])
      | none =>
        ({ score := 0.0, label := "neutral", confidence := 0.0,
           reasoning := "Analysis failed: No valid JSON found in response",
           cost := some 0.0, moderation_flagged := false },
         [Event.moderation text, Event.completion prompt])

/-- The dictionary returned by `AINewsAnalyzer.summarize_article`; every path
sets a `"cost"` key. -/
structure SummaryResult where
  summary : String
  key_points : List String
  cost : ℚ
  moderation_flagged : Bool
deriving DecidableEq

/-- The summary prompt (`ai_analyzer.py` lines 145-155). -/
def summary_prompt (env : Env) (title content : String) : String :=
  "Summarize this news article in 2-3 sentences and extract 3-5 key points. Return JSON format:\n\nTitle: "
    ++ title ++ "\n\nContent: " ++ truncate_text env content 2500
    ++ "\n\nReturn JSON with:\n- summary: 2-3 sentence summary\n- key_points: array of 3-5 key points (each 1 sentence)\n\nJSON:"

/-- `AINewsAnalyzer.summarize_article` (`ai_analyzer.py` lines 130-189), paired
with its trace of external calls; moderation sees only the first 1000
characters of `title\n\ncontent`. -/
def summarize_article (env : Env) (title content : String) :
    SummaryResult × List Event :=
  let full_text := title ++ "\n\n" ++ content
  let moderated_text := full_text.take 1000
  let flagged := moderate_content env moderated_text
  if flagged then
    ({ summary := "Content unavailable due to moderation policies",
       key_points := [], cost := 0.0, moderation_flagged := true },
     [Event.moderation moderated_text])
  else
    let prompt := summary_prompt env title content
    let input_tokens := count_tokens env prompt
    match env.complete prompt with
    | Except.error _ =>
      ({ summary := "Summary unavailable", key_points := [], cost := 0.0,
         moderation_flagged := false },
       [Event.moderation moderated_text, Event.completion prompt])
    | Except.ok response =>
      let output_tokens := response.usage.getD 0
      let cost := calculate_cost env.model input_tokens output_tokens
      let result_text := response.text.trim
      match env.parseSummary result_text with
      | some d =>
        ({ summary := d.summary, key_points := d.key_points, cost := cost,
           moderation_flagged := false },
         [Event.moderation moderated_text, Event.completion prompt])
      | none =>
        ({ summary := "Summary unavailable", key_points := [], cost := 0.0,
           moderation_flagged := false },
         [Event.moderation moderated_text, Event.completion prompt])

/-- The dictionary returned by `AINewsAnalyzer.classify_topics`; no path sets a
`moderation_flagged` key. -/
structure ClassifyResult where
  categories : List String
  entities : Entities
  keywords : List String
  cost : ℚ
deriving DecidableEq

/-- The fixed category list (`ai_analyzer.py` lines 196-201). -/
def classify_categories : List String :=
  ["Politics", "Business", "Technology", "Healthcare", "Sports",
   "Entertainment", "Science", "Environment", "Education", "Crime",
   "International", "Economy", "Finance", "Startup", "AI/ML",
   "Cybersecurity", "Energy", "Transportation", "Real Estate"]

/-- The classification prompt (`ai_analyzer.py` lines 203-216). -/
def classify_prompt (env : Env) (title content : String) : String :=
  "Classify this news article into relevant categories and extract entities. Return JSON format:\n\nTitle: "
    ++ title ++ "\n\nContent: " ++ truncate_text env content 2000
    ++ "\n\nAvailable categories: " ++ String.intercalate ", " classify_categories
    ++ "\n\nReturn JSON with:\n- categories: array of 1-3 most relevant categories from the list above\n- entities: object with arrays for \"people\", \"companies\", \"locations\", \"events\"\n- keywords: array of 5-10 most important keywords/phrases\n\nJSON:"

/-- `AINewsAnalyzer.classify_topics` (`ai_analyzer.py` lines 191-249), paired
with its trace of external calls.  Unlike the other two sub-tasks it performs
no moderation call: the source goes straight from prompt construction to the
completion request. -/
def classify_topics (env : Env) (title content : String) :
    ClassifyResult × List Event :=
  let prompt := classify_prompt env title content
  let input_tokens := count_tokens env prompt
  match env.complete prompt with
  | Except.error _ =>
    ({ categories := ["General"],
       entities := { people := [], companies := [], locations := [], events := [] },
       keywords := [], cost := 0.0 },
     [Event.completion prompt])
  | Except.ok response =>
    let output_tokens := response.usage.getD 0
    let cost := calculate_cost env.model input_tokens output_tokens
    let result_text := response.text.trim
    match env.parseClassify result_text with
    | some d =>
      ({ categories := d.categories, entities := d.entities,
         keywords := d.keywords, cost := cost },
       [Event.completion prompt])
    | none =>
      ({ categories := ["General"],
         entities := { people := [], companies := [], locations := [], events := [] },
         keywords := [], cost := 0.0 },
       [Event.completion prompt])

/-! ## Article analyzer and batch coordinator — `src/ai_analyzer.py` lines 251-346 -/

/-- The composite analysis record assembled by `AINewsAnalyzer.analyze_article`
(`ai_analyzer.py` lines 297-307). -/
structure ArticleAnalysis where
  article_id : String
  analyzed_at : String
  sentiment : SentimentResult
  classification : ClassifyResult
  summarization : SummaryResult
  trending_score : ℚ
  total_cost : ℚ
  word_count : ℕ
  reading_time : String
deriving DecidableEq

/-- The value stored under a processed article's `"analysis"` key: either the
full `ArticleAnalysis` or the degraded error record built by
`batch_analyze` (`ai_analyzer.py` lines 329-333). -/
inductive AnalysisRecord where
  | ok (analysis : ArticleAnalysis)
  | err (error : String) (total_cost : ℚ) (analyzed_at : String)
deriving DecidableEq

/-- An article dict as the analyzer consumes it; `Option` distinguishes an
absent key from a present-but-empty value, matching `article.get(...)`. -/
structure Article where
  title : Option String
  content : Option String
  summary : Option String
  url : Option String
  source : Option String
  published_at : Option String
  analysis : Option AnalysisRecord
deriving DecidableEq

/-- The analysis-input selection of `AINewsAnalyzer.analyze_article`
(`ai_analyzer.py` lines 254-258): body when `include_content` else summary,
then a fallback to the title when that choice is empty. -/
def choose_text (article : Article) (include_content : Bool) : String :=
  let title := article.title.getD ""
  let content :=
    if include_content then article.content.getD "" else article.summary.getD ""
  if content = "" then title else content

/-- Mirrors the claim wording for the same selection (spec section 4.3): "full
body if `include_content` and body is non-empty, else summary, else title".
Stated only to be compared with `choose_text`, the embedding of the source. -/
def choose_text_claim (article : Article) (include_content : Bool) : String :=
  let title := article.title.getD ""
  let body := article.content.getD ""
  let summary := article.summary.getD ""
  if include_content = true ∧ body ≠ "" then body
  else if summary ≠ "" then summary
  else title

/-- The hash input `f"{title}{content}"` (`ai_analyzer.py` line 261): bare
concatenation, no separator. -/
def article_text (title content : String) : String := title ++ content

/-- `article_id` (`ai_analyzer.py` line 262): the first 16 hex characters of a
digest of `article_text`; the digest function (SHA-256 hexdigest) is the
external parameter `h`. -/
def article_id (h : String → String) (title content : String) : String :=
  (h (article_text title content)).take 16

/-- Python `len(s.split())`: whitespace-delimited tokens, empty runs dropped. -/
def word_count (s : String) : ℕ :=
  ((s.split fun c => c.isWhitespace).filter fun w => w ≠ "").length

/-- Whether `hay` starts with `needle`. -/
def starts_with_chars : List Char → List Char → Bool
  | [], _ => true
  | _ :: _, [] => false
  | n :: ns, h :: hs => n = h && starts_with_chars ns hs

/-- Python `needle in hay` on strings, over their character lists. -/
def has_substr (needle : List Char) : List Char → Bool
  | [] => starts_with_chars needle []
  | h :: hs => starts_with_chars needle (h :: hs) || has_substr needle hs

/-- Python `str.lower()`, character by character (as `String.toLower`, but
expressed over the character list). -/
def str_lower (s : String) : String :=
  String.mk (s.toList.map Char.toLower)

/-- The urgency-marker test of the trending heuristic (`ai_analyzer.py` line
292): `"breaking" in title.lower() or "urgent" in title.lower()`. -/
def urgency (title : String) : Bool :=
  has_substr "breaking".toList (str_lower title).toList
    || has_substr "urgent".toList (str_lower title).toList

/-- `AINewsAnalyzer.analyze_article` (`ai_analyzer.py` lines 251-309).  The
three sub-tasks run concurrently in the source but are data-independent, so
their gathered results are the three calls below; the short-content branch
(line 271) substitutes the zero-cost summary fallback without any external
call. -/
def analyze_article (env : Env) (article : Article) (include_content : Bool) :
    ArticleAnalysis :=
  let title := article.title.getD ""
  let content := choose_text article include_content
  let id := article_id env.hash title content
  let sentiment := (analyze_sentiment env (title ++ "\n" ++ content)).1
  let classification := (classify_topics env title content).1
  let summarization :=
    if 200 < content.length then (summarize_article env title content).1
    else { summary := article.summary.getD title, key_points := [],
           cost := 0.0, moderation_flagged := false }
  let total_cost := sentiment.cost.getD 0 + classification.cost + summarization.cost
  let trending_score : ℚ :=
    0.5 + (if urgency title then 0.3 else 0)
        + (if 0.7 < |sentiment.score| then 0.2 else 0)
  { article_id := id, analyzed_at := env.now, sentiment, classification,
    summarization,
    trending_score := min trending_score 1.0,
    total_cost,
    word_count := if content = "" then 0 else word_count content,
    reading_time :=
      if content = "" then "< 1 minute"
      else toString (max 1 (word_count content / 200)) ++ " minutes" }

/-- The inner `analyze_with_limit` of `AINewsAnalyzer.batch_analyze`
(`ai_analyzer.py` lines 321-334): the per-article analysis — which may raise in
the source, hence the `Except`-valued parameter `analyzeA` — is caught and
converted into the degraded `analysis` record; either way the input article is
returned with its `"analysis"` key set and no other key touched. -/
def analyze_with_limit (env : Env) (analyzeA : Article → Except String ArticleAnalysis)
    (article : Article) : Article :=
  match analyzeA article with
  | Except.ok analysis => { article with analysis := some (AnalysisRecord.ok analysis) }
  | Except.error e =>
    { article with
        analysis := some (AnalysisRecord.err e 0.0 env.now) }

/-- `AINewsAnalyzer.batch_analyze` (`ai_analyzer.py` lines 311-346).
`asyncio.gather(..., return_exceptions=True)` yields one entry per article —
always a result, never an exception, since `analyze_with_limit` catches — and
the final comprehension drops entries that are exceptions.  The semaphore
bounds concurrency only; it does not change which records are produced. -/
def batch_analyze (env : Env) (analyzeA : Article → Except String ArticleAnalysis)
    (articles : List Article) : List Article :=
  let analyzed_articles : List (Except String Article) :=
    articles.map fun article => Except.ok (analyze_with_limit env analyzeA article)
  analyzed_articles.filterMap fun r =>
    match r with
    | Except.ok article => some article
    | Except.error _ => none

/-- True when an article's `analysis` key holds the degraded error record. -/
def has_error_record (a : Article) : Bool :=
  match a.analysis with
  | some (AnalysisRecord.err _ _ _) => true
  | _ => false

/-- True when an article's `analysis` key holds a complete analysis. -/
def has_ok_record (a : Article) : Bool :=
  match a.analysis with
  | some (AnalysisRecord.ok _) => true
  | _ => false

/-- True when a per-article analysis call would raise. -/
def analysis_fails (r : Except String ArticleAnalysis) : Bool :=
  match r with
  | Except.error _ => true
  | Except.ok _ => false

/-! ## Concrete instances used by witnesses and counterexamples -/

/-- A toy token encoding for concrete environments: one token per character. -/
def enc0 : String → List ℕ := fun s => s.toList.map Char.toNat

/-- The matching decoder for `enc0`. -/
def dec0 : List ℕ → String := fun l => String.mk (l.map fun n => Char.ofNat n)

/-- An environment whose moderation endpoint flags everything and whose
completion endpoint is down. -/
def env_flag : Env :=
  { model := "gpt-3.5-turbo", moderateRaw := fun _ => some true,
    complete := fun _ => Except.error "network unreachable",
    encode := enc0, decode := dec0,
    parseSentiment := fun _ => none, parseSummary := fun _ => none,
    parseClassify := fun _ => none, hash := fun s => s,
    now := "2025-10-12T00:00:00" }

/-- An environment whose moderation endpoint passes everything and whose
completion endpoint is down. -/
def env_fail : Env :=
  { model := "gpt-3.5-turbo", moderateRaw := fun _ => some false,
    complete := fun _ => Except.error "network unreachable",
    encode := enc0, decode := dec0,
    parseSentiment := fun _ => none, parseSummary := fun _ => none,
    parseClassify := fun _ => none, hash := fun s => s,
    now := "2025-10-12T00:00:00" }

/-- An environment in which every call succeeds and the sentiment parse yields
a strong positive score. -/
def env_strong : Env :=
  { model := "gpt-3.5-turbo", moderateRaw := fun _ => some false,
    complete := fun _ => Except.ok { text := "resp", usage := some 50 },
    encode := enc0, decode := dec0,
    parseSentiment := fun _ =>
      some { score := 0.9, label := "positive", confidence := 0.8,
             reasoning := "strongly positive coverage" },
    parseSummary := fun _ =>
      some { summary := "a short summary", key_points := ["k1", "k2", "k3"] },
    parseClassify := fun _ =>
      some { categories := ["Business"],
             entities := { people := [], companies := [], locations := [],
                           events := [] },
             keywords := ["k"] },
    hash := fun s => s, now := "2025-10-12T00:00:00" }

/-- An article with an urgency marker in the title and a short body. -/
def art_breaking : Article :=
  { title := some "BREAKING News", content := some "short body",
    summary := none, url := none, source := none, published_at := none,
    analysis := none }

/-- An article whose analysis succeeds, with every optional key populated. -/
def art_ok : Article :=
  { title := some "fine", content := some "body", summary := some "sum",
    url := some "https://example.com/a", source := some "src",
    published_at := some "2025-10-11", analysis := none }

/-- An article on which the per-article analysis is forced to fail. -/
def art_bad : Article :=
  { title := some "bad", content := none, summary := none, url := none,
    source := none, published_at := none, analysis := none }

/-- A two-article batch with exactly one failing article. -/
def arts2 : List Article := [art_ok, art_bad]

/-- An arbitrary complete analysis value for the stub analyzer `f2`. -/
def dummy_analysis : ArticleAnalysis :=
  { article_id := "0000", analyzed_at := "2025-10-12T00:00:00",
    sentiment := { score := 0, label := "neutral", confidence := 0,
                   reasoning := "", cost := some 0, moderation_flagged := false },
    classification := { categories := ["General"],
                        entities := { people := [], companies := [],
                                      locations := [], events := [] },
                        keywords := [], cost := 0 },
    summarization := { summary := "", key_points := [], cost := 0,
                       moderation_flagged := false },
    trending_score := 0.5, total_cost := 0, word_count := 0,
    reading_time := "< 1 minute" }

/-- A stub per-article analyzer raising exactly on `art_bad`. -/
def f2 : Article → Except String ArticleAnalysis := fun a =>
  if a.title = some "bad" then Except.error "boom" else Except.ok dummy_analysis

/-- The article of the C7 counterexample: `include_content` is true, the body
key is present but empty, and a non-empty summary is available. -/
def c7_article : Article :=
  { title := some "T", content := some "", summary := some "S",
    url := none, source := none, published_at := none, analysis := none }

/-! ## Helper lemmas -/

/-- Every cost computed by `calculate_cost` is non-negative: the pricing table
holds non-negative unit prices and token counts are naturals. -/
theorem calculate_cost_nonneg (model : String) (i o : ℕ) :
    0 ≤ calculate_cost model i o := by
  unfold calculate_cost model_pricing
  split_ifs <;> simp <;> positivity

/-- The batch coordinator is the per-article wrapper mapped over the input:
no entry of the gathered list is an exception, so the final filter keeps
everything. -/
theorem batch_analyze_eq_map (env : Env)
    (analyzeA : Article → Except String ArticleAnalysis)
    (articles : List Article) :
    batch_analyze env analyzeA articles
      = articles.map (analyze_with_limit env analyzeA) := by
  induction articles with
  | nil => rfl
  | cons a as ih =>
    simp only [batch_analyze, List.map_cons, List.filterMap_cons] at ih ⊢
    exact congrArg _ ih

/-- Counting a predicate and its negation partitions a list. -/
theorem countP_not_add_countP (p : α → Bool) (l : List α) :
    l.countP (fun a => !(p a)) + l.countP p = l.length := by
  induction l with
  | nil => rfl
  | cons a as ih =>
    by_cases h : p a = true <;> simp [List.countP_cons, h, ← ih] <;> omega

/-- The wrapped article carries the degraded error record exactly when the
underlying analysis raised. -/
theorem has_error_record_awl (env : Env)
    (analyzeA : Article → Except String ArticleAnalysis) (a : Article) :
    has_error_record (analyze_with_limit env analyzeA a)
      = analysis_fails (analyzeA a) := by
  cases h : analyzeA a <;>
    simp [analyze_with_limit, has_error_record, analysis_fails, h]

/-- The wrapped article carries a complete analysis exactly when the
underlying analysis returned. -/
theorem has_ok_record_awl (env : Env)
    (analyzeA : Article → Except String ArticleAnalysis) (a : Article) :
    has_ok_record (analyze_with_limit env analyzeA a)
      = !(analysis_fails (analyzeA a)) := by
  cases h : analyzeA a <;>
    simp [analyze_with_limit, has_ok_record, analysis_fails, h]

/-! ## Claim theorems -/

/-- C2: `batch_analyze` returns exactly one record per input article and never
raises for an individual failure (the embedding is total); every error record
carries `total_cost = 0`; and when the per-article analysis raises on exactly
one article, exactly one returned record carries the error marker and the
other N−1 carry complete analyses. -/
theorem C2_batch_isolation (env : Env)
    (analyzeA : Article → Except String ArticleAnalysis)
    (articles : List Article) :
    (batch_analyze env analyzeA articles).length = articles.length
    ∧ (∀ a ∈ batch_analyze env analyzeA articles, ∀ e c t,
        a.analysis = some (AnalysisRecord.err e c t) → c = 0)
    ∧ ((articles.countP fun a => analysis_fails (analyzeA a)) = 1 →
        (batch_analyze env analyzeA articles).countP has_error_record = 1
        ∧ (batch_analyze env analyzeA articles).countP has_ok_record
            = articles.length - 1) := by
  rw [batch_analyze_eq_map]
  refine ⟨List.length_map _ _, ?_, ?_⟩
  · intro a ha e c t hrec
    obtain ⟨b, _, rfl⟩ := List.mem_map.mp ha
    cases hb : analyzeA b <;>
      simp [analyze_with_limit, hb] at hrec
    exact hrec.2.1.symm.trans (by norm_num)
  · intro hone
    have herr : (articles.map (analyze_with_limit env analyzeA)).countP has_error_record
        = articles.countP fun a => analysis_fails (analyzeA a) := by
      rw [List.countP_map]
      refine List.countP_congr fun a _ => ?_
      simp [Function.comp, has_error_record_awl env analyzeA a]
    have hok : (articles.map (analyze_with_limit env analyzeA)).countP has_ok_record
        = articles.countP fun a => !(analysis_fails (analyzeA a)) := by
      rw [List.countP_map]
      refine List.countP_congr fun a _ => ?_
      simp [Function.comp, has_ok_record_awl env analyzeA a]
    have hsplit := countP_not_add_countP (fun a => analysis_fails (analyzeA a)) articles
    constructor
    · rw [herr, hone]
    · rw [hok]
      omega

/-- C2 witness: a two-article batch whose stub analyzer raises on exactly one
article yields exactly one error record and one complete record. -/
theorem C2_batch_isolation_witness :
    (batch_analyze env_fail f2 arts2).countP has_error_record = 1
    ∧ (batch_analyze env_fail f2 arts2).countP has_ok_record = arts2.length - 1 :=
  (C2_batch_isolation env_fail f2 arts2).2.2 (by decide)

/-- C10: each record returned by `batch_analyze` is its input article with the
`analysis` field attached — every other field (title, url, summary, source,
published_at, content) is unchanged, whether the per-article analysis succeeds
or fails. -/
theorem C10_batch_frame (env : Env)
    (analyzeA : Article → Except String ArticleAnalysis)
    (articles : List Article) :
    List.Forall₂ (fun o a =>
        o.title = a.title ∧ o.content = a.content ∧ o.summary = a.summary
        ∧ o.url = a.url ∧ o.source = a.source ∧ o.published_at = a.published_at
        ∧ o.analysis = some (match analyzeA a with
            | Except.ok an => AnalysisRecord.ok an
            | Except.error e => AnalysisRecord.err e 0.0 env.now))
      (batch_analyze env analyzeA articles) articles := by
  rw [batch_analyze_eq_map]
  induction articles with
  | nil => exact List.Forall₂.nil
  | cons a as ih =>
    refine List.Forall₂.cons ?_ ih
    cases hfa : analyzeA a <;> simp [analyze_with_limit, hfa]

/-- C7 counterexample: with `include_content = true`, an empty body, and a
non-empty summary, the code falls back directly to the title — the summary is
not consulted, contradicting the claimed body → summary → title order. -/
theorem C7_counterexample :
    choose_text c7_article true = "T"
    ∧ choose_text_claim c7_article true = "S"
    ∧ choose_text c7_article true ≠ choose_text_claim c7_article true := by
  refine ⟨by decide, by decide, by decide⟩

/-- C7 amended: when `include_content` is true the analysis text is the body,
falling back to the title (not the summary) when the body is empty; when
`include_content` is false it is the summary, falling back to the title; and
the chosen text is never empty when the title is non-empty. -/
theorem C7_input_selection (article : Article) (include_content : Bool) :
    (include_content = true → article.content.getD "" ≠ "" →
        choose_text article include_content = article.content.getD "")
    ∧ (include_content = true → article.content.getD "" = "" →
        choose_text article include_content = article.title.getD "")
    ∧ (include_content = false → article.summary.getD "" ≠ "" →
        choose_text article include_content = article.summary.getD "")
    ∧ (include_content = false → article.summary.getD "" = "" →
        choose_text article include_content = article.title.getD "")
    ∧ (article.title.getD "" ≠ "" → choose_text article include_content ≠ "") := by
  refine ⟨?_, ?_, ?_, ?_, ?_⟩
  · intro hinc hne; subst hinc; simp [choose_text, hne]
  · intro hinc he; subst hinc; simp [choose_text, he]
  · intro hinc hne; subst hinc; simp [choose_text, hne]
  · intro hinc he; subst hinc; simp [choose_text, he]
  · intro ht
    simp only [choose_text]
    split_ifs <;> simp_all

/-- C7 witness: on the counterexample article the amended selection rule
evaluates as proved. -/
theorem C7_input_selection_witness : choose_text c7_article true = "T" :=
  (C7_input_selection c7_article true).2.1 rfl (by decide)

/-- C8 counterexample: the identifier hashes the bare concatenation
`title + content`, so the distinct pairs ("ab", "c") and ("a", "bc") have the
same hash input and hence the same identifier for every digest function —
a systematic collision, not an overwhelming-probability event. -/
theorem C8_counterexample :
    article_text "ab" "c" = article_text "a" "bc"
    ∧ (("ab", "c") : String × String) ≠ (("a" : String), ("bc" : String))
    ∧ article_id (fun s => s) "ab" "c" = article_id (fun s => s) "a" "bc" := by
  refine ⟨by decide, by decide, by decide⟩

/-- C8 amended: the identifier is a deterministic function of (title, body)
that depends only on the concatenation `title ++ body`: any two pairs with
equal concatenation always receive the same identifier, whatever the digest
function; distinct concatenations are separated only with the digest's
collision-resistance. -/
theorem C8_id_concat_only (h : String → String) (t₁ c₁ t₂ c₂ : String)
    (heq : article_text t₁ c₁ = article_text t₂ c₂) :
    article_id h t₁ c₁ = article_id h t₂ c₂
    ∧ article_id h t₁ c₁ = article_id h t₁ c₁ := by
  unfold article_id
  rw [heq]
  exact ⟨rfl, rfl⟩

/-- C8 witness: the amended theorem applied at the colliding concrete pair. -/
theorem C8_id_concat_only_witness :
    article_id (fun s => s) "ab" "c" = article_id (fun s => s) "a" "bc" :=
  (C8_id_concat_only (fun s => s) "ab" "c" "a" "bc" (by decide)).1

/-- The AI-disabled branch of the pricing calculation always returns the
`basic` tier. -/
theorem calculate_pricing_tier_basic (key : Option String) (n : ℤ) :
    calculate_pricing_tier false key n
      = Except.ok
          { tier := "basic",
            description := "Basic news aggregation (no AI analysis)",
            cost_per_article := 0.001, cost_per_1000 := 0.001 * 1000,
            total_cost := (n : ℚ) * 0.001, articles_count := n,
            currency := "USD" } := by
  simp [calculate_pricing_tier, cost_per_1000_entry, pricing_lookup]

/-- The user-key branch of the pricing calculation always returns the `byok`
tier. -/
theorem calculate_pricing_tier_byok (key : Option String) (n : ℤ)
    (hkey : truthy_key key = true) :
    calculate_pricing_tier true key n
      = Except.ok
          { tier := "byok",
            description := "Enterprise BYOK tier (user\x27s OpenAI API key)",
            cost_per_article := 2.0 / 1000, cost_per_1000 := 2.0,
            total_cost := (n : ℚ) * (2.0 / 1000), articles_count := n,
            currency := "USD" } := by
  simp [calculate_pricing_tier, cost_per_1000_entry, pricing_lookup, hkey]

/-- The free-tier branch of the pricing calculation raises `NameError`: the
`cost_per_1000` dict entry evaluates the never-assigned local
`cost_per_article` because `"free"` is not a key of the pricing dict. -/
theorem calculate_pricing_tier_free (key : Option String) (n : ℤ)
    (hkey : truthy_key key = false) (hn : n ≤ free_tier_limit) :
    calculate_pricing_tier true key n
      = Except.error "NameError: name cost_per_article is not defined" := by
  simp [calculate_pricing_tier, cost_per_1000_entry, pricing_lookup, hkey, hn]

/-- The paid built-in branch of the pricing calculation. -/
theorem calculate_pricing_tier_built_in (key : Option String) (n : ℤ)
    (hkey : truthy_key key = false) (hn : free_tier_limit < n) :
    calculate_pricing_tier true key n
      = Except.ok
          { tier := "built_in_ai",
            description := "Built-in AI tier (" ++ toString free_tier_limit
              ++ " free + " ++ toString (n - free_tier_limit)
              ++ " paid articles)",
            cost_per_article := 6.0 / 1000, cost_per_1000 := 6.0,
            total_cost := ((n - free_tier_limit : ℤ) : ℚ) * (6.0 / 1000),
            articles_count := n, currency := "USD" } := by
  have h1 : ¬ (n ≤ free_tier_limit) := not_le.mpr hn
  simp [calculate_pricing_tier, cost_per_1000_entry, pricing_lookup, hkey, h1]

/-- C1: with AI enabled and no user key the claimed free tier never
materializes — the free-tier branch (any count ≤ 50, including the claimed
count = 50 boundary) raises `NameError` instead of returning tier `"free"`
with cost 0, because line 63 of `cost_manager.py` reads the unassigned local
`cost_per_article`.  The paid side of the claim does hold: for every count
above 50 the decision is the built-in tier with total cost
(count − 50) × (6/1000), never negative. -/
theorem C1_free_tier_name_error :
    calculate_pricing_tier true none 30
        = Except.error "NameError: name cost_per_article is not defined"
    ∧ calculate_pricing_tier true none 50
        = Except.error "NameError: name cost_per_article is not defined"
    ∧ ∀ n : ℤ, 50 < n → ∃ d,
        calculate_pricing_tier true none n = Except.ok d
        ∧ d.tier = "built_in_ai"
        ∧ d.total_cost = ((n : ℚ) - 50) * (6.0 / 1000)
        ∧ 0 ≤ d.total_cost := by
  refine ⟨calculate_pricing_tier_free none 30 rfl (by norm_num [free_tier_limit]),
          calculate_pricing_tier_free none 50 rfl (by norm_num [free_tier_limit]),
          ?_⟩
  intro n hn
  refine ⟨_, calculate_pricing_tier_built_in none n rfl
      (by norm_num [free_tier_limit]; exact hn), rfl, ?_, ?_⟩
  · show ((n - free_tier_limit : ℤ) : ℚ) * (6.0 / 1000) = ((n : ℚ) - 50) * (6.0 / 1000)
    norm_num [free_tier_limit]
  · show (0 : ℚ) ≤ ((n - free_tier_limit : ℤ) : ℚ) * (6.0 / 1000)
    have hz : (0 : ℤ) ≤ n - free_tier_limit := by
      simp only [free_tier_limit]
      omega
    have hq : (0 : ℚ) ≤ ((n - free_tier_limit : ℤ) : ℚ) := by exact_mod_cast hz
    positivity

/-- C1 witness: the general paid-tier statement applied at count = 51 gives
exactly one article billed at the built-in per-article rate. -/
theorem C1_free_tier_name_error_witness :
    ∃ d, calculate_pricing_tier true none 51 = Except.ok d
      ∧ d.tier = "built_in_ai" ∧ d.total_cost = 6.0 / 1000 := by
  obtain ⟨d, hd, htier, hcost, -⟩ :=
    C1_free_tier_name_error.2.2 51 (by norm_num)
  exact ⟨d, hd, htier, by rw [hcost]; norm_num⟩

/-- A request whose pricing decision is not the built-in tier skips the limit
checks entirely and is valid. -/
theorem validate_request_not_gated (daily_limit : ℚ) (st : CostState)
    (enable_ai : Bool) (key : Option String) (n : ℤ) (d : PricingDecision)
    (hp : calculate_pricing_tier enable_ai key n = Except.ok d)
    (ht : ¬ d.tier = "built_in_ai") :
    validate_request daily_limit st enable_ai key n
      = Except.ok
          { valid := true, error := none, pricing := d, limits := none,
            suggested_max_articles := none,
            estimated_cost := some d.total_cost } := by
  unfold validate_request
  rw [hp]
  simp [ht]

/-- A built-in-tier request with the daily limit already exceeded is rejected
with the budget-exceeded error and no suggested count. -/
theorem validate_request_exceeded (daily_limit : ℚ) (st : CostState)
    (key : Option String) (n : ℤ) (d : PricingDecision)
    (hp : calculate_pricing_tier true key n = Except.ok d)
    (ht : d.tier = "built_in_ai")
    (hex : (check_daily_limits daily_limit st).limit_exceeded = true) :
    validate_request daily_limit st true key n
      = Except.ok
          { valid := false,
            error := some ("Daily spending limit of $"
              ++ toString (check_daily_limits daily_limit st).daily_limit
              ++ " exceeded. Current spend: $"
              ++ toString (check_daily_limits daily_limit st).current_spend),
            pricing := d, limits := some (check_daily_limits daily_limit st),
            suggested_max_articles := none, estimated_cost := none } := by
  unfold validate_request
  rw [hp]
  simp [ht, hex]

/-- A built-in-tier request below the limit but above `articles_remaining` is
rejected with the too-large error and `articles_remaining` as the suggestion. -/
theorem validate_request_too_large (daily_limit : ℚ) (st : CostState)
    (key : Option String) (n : ℤ) (d : PricingDecision)
    (hp : calculate_pricing_tier true key n = Except.ok d)
    (ht : d.tier = "built_in_ai")
    (hex : (check_daily_limits daily_limit st).limit_exceeded = false)
    (hrem : (check_daily_limits daily_limit st).articles_remaining < n) :
    validate_request daily_limit st true key n
      = Except.ok
          { valid := false,
            error := some ("Request for " ++ toString n
              ++ " articles exceeds remaining daily budget. Maximum allowed: "
              ++ toString (check_daily_limits daily_limit st).articles_remaining),
            pricing := d, limits := some (check_daily_limits daily_limit st),
            suggested_max_articles
              := some (check_daily_limits daily_limit st).articles_remaining,
            estimated_cost := none } := by
  unfold validate_request
  rw [hp]
  simp [ht, hex, hrem]

/-- A built-in-tier request within both gates is valid. -/
theorem validate_request_within (daily_limit : ℚ) (st : CostState)
    (key : Option String) (n : ℤ) (d : PricingDecision)
    (hp : calculate_pricing_tier true key n = Except.ok d)
    (ht : d.tier = "built_in_ai")
    (hex : (check_daily_limits daily_limit st).limit_exceeded = false)
    (hrem : ¬ (check_daily_limits daily_limit st).articles_remaining < n) :
    validate_request daily_limit st true key n
      = Except.ok
          { valid := true, error := none, pricing := d, limits := none,
            suggested_max_articles := none,
            estimated_cost := some d.total_cost } := by
  unfold validate_request
  rw [hp]
  simp [ht, hex, hrem]

/-- C6: requests resolving to the basic or BYOK tier are never budget-gated;
a built-in-tier request (AI on, no truthy key, count above the free limit)
fails exactly when the daily limit is already exceeded or the count exceeds
`articles_remaining`, and in the too-large case the rejection carries
`suggested_max_articles = articles_remaining`; but a request resolving to the
claimed free tier does not validate — it raises the free-branch `NameError`. -/
theorem C6_validation_gating (daily_limit : ℚ) (st : CostState)
    (key : Option String) (n : ℤ) :
    (∃ v, validate_request daily_limit st false key n = Except.ok v
        ∧ v.valid = true)
    ∧ (truthy_key key = true →
        ∃ v, validate_request daily_limit st true key n = Except.ok v
          ∧ v.valid = true)
    ∧ (truthy_key key = false → free_tier_limit < n →
        ∃ v, validate_request daily_limit st true key n = Except.ok v
          ∧ (v.valid = false ↔
              ((check_daily_limits daily_limit st).limit_exceeded = true
                ∨ (check_daily_limits daily_limit st).articles_remaining < n))
          ∧ ((check_daily_limits daily_limit st).limit_exceeded = false →
              (check_daily_limits daily_limit st).articles_remaining < n →
                v.suggested_max_articles
                  = some (check_daily_limits daily_limit st).articles_remaining))
    ∧ (truthy_key key = false → n ≤ free_tier_limit →
        validate_request daily_limit st true key n
          = Except.error "NameError: name cost_per_article is not defined") := by
  refine ⟨?_, ?_, ?_, ?_⟩
  · exact ⟨_, validate_request_not_gated daily_limit st false key n _
      (calculate_pricing_tier_basic key n) (by simp), rfl⟩
  · intro hkey
    exact ⟨_, validate_request_not_gated daily_limit st true key n _
      (calculate_pricing_tier_byok key n hkey) (by simp), rfl⟩
  · intro hkey hn
    have hp := calculate_pricing_tier_built_in key n hkey hn
    by_cases hex : (check_daily_limits daily_limit st).limit_exceeded = true
    · refine ⟨_, validate_request_exceeded daily_limit st key n _ hp rfl hex, ?_, ?_⟩
      · simp [hex]
      · intro hex' _; rw [hex] at hex'; cases hex'
    · have hexf : (check_daily_limits daily_limit st).limit_exceeded = false := by
        simpa using hex
      by_cases hrem : (check_daily_limits daily_limit st).articles_remaining < n
      · refine ⟨_, validate_request_too_large daily_limit st key n _ hp rfl hexf hrem,
          ?_, ?_⟩
        · simp [hrem]
        · intro _ _; rfl
      · refine ⟨_, validate_request_within daily_limit st key n _ hp rfl hexf hrem,
          ?_, ?_⟩
        · simp [hexf, hrem]
        · intro _ hrem'; exact absurd hrem' hrem
  · intro hkey hn
    unfold validate_request
    rw [calculate_pricing_tier_free key n hkey hn]

/-- C6 witness: with a fresh session and a $50 daily limit, a 9000-article
built-in request is rejected as too large with suggested count 8333 =
⌊50 / 0.006⌋, and a BYOK request of the same size is accepted. -/
theorem C6_validation_gating_witness :
    (∃ v, validate_request 50 ⟨0, 0⟩ true none 9000 = Except.ok v
       ∧ v.valid = false ∧ v.suggested_max_articles = some 8333)
    ∧ (∃ v, validate_request 50 ⟨0, 0⟩ true (some "sk-user") 9000 = Except.ok v
       ∧ v.valid = true) := by
  constructor
  · obtain ⟨v, hv, hiff, hsugg⟩ :=
      (C6_validation_gating 50 ⟨0, 0⟩ none 9000).2.2.1 rfl
        (by norm_num [free_tier_limit])
    have hex : (check_daily_limits 50 ⟨0, 0⟩).limit_exceeded = false := by
      simp [check_daily_limits, decide_eq_false_iff_not]
    have hrem : (check_daily_limits 50 ⟨0, 0⟩).articles_remaining = 8333 := by
      simp [check_daily_limits]
      norm_num
    refine ⟨v, hv, ?_, ?_⟩
    · exact hiff.mpr (Or.inr (by rw [hrem]; norm_num))
    · rw [hsugg hex (by rw [hrem]; norm_num), hrem]
  · exact (C6_validation_gating 50 ⟨0, 0⟩ (some "sk-user") 9000).2.1 rfl

/-- C3 counterexample: in the moderation-flagged sentiment fallback the result
has `moderation_flagged = true` but its `"cost"` key is absent (`none`), not 0
— the claimed "cost field is present" fails on this path. -/
theorem C3_counterexample :
    (analyze_sentiment env_flag "some text").1.moderation_flagged = true
    ∧ (analyze_sentiment env_flag "some text").1.cost = none :=
  ⟨by decide, by decide⟩

/-- C3 amended: a sentiment result omits its cost key exactly on the
moderation-flagged path (where downstream readers default it to 0); whenever
the sentiment cost is present it is non-negative and it is exactly 0 when the
completion call failed; summary and classification results always carry a
non-negative cost which is exactly 0 when flagged (summary) or when the
completion call failed. -/
theorem C3_cost_invariant (env : Env) (text title content : String) :
    ((analyze_sentiment env text).1.cost = none
        ↔ (analyze_sentiment env text).1.moderation_flagged = true)
    ∧ (∀ q, (analyze_sentiment env text).1.cost = some q → 0 ≤ q)
    ∧ (∀ e, env.complete (sentiment_prompt env text) = Except.error e →
        (analyze_sentiment env text).1.moderation_flagged = false →
        (analyze_sentiment env text).1.cost = some 0)
    ∧ 0 ≤ (summarize_article env title content).1.cost
    ∧ ((summarize_article env title content).1.moderation_flagged = true →
        (summarize_article env title content).1.cost = 0)
    ∧ (∀ e, env.complete (summary_prompt env title content) = Except.error e →
        (summarize_article env title content).1.cost = 0)
    ∧ 0 ≤ (classify_topics env title content).1.cost
    ∧ (∀ e, env.complete (classify_prompt env title content) = Except.error e →
        (classify_topics env title content).1.cost = 0) := by
  refine ⟨?_, ?_, ?_, ?_, ?_, ?_, ?_, ?_⟩
  · by_cases hm : moderate_content env text = true
    · simp [analyze_sentiment, hm]
    · rcases hc : env.complete (sentiment_prompt env text) with e | r
      · simp [analyze_sentiment, hm, hc]
      · rcases hp : env.parseSentiment r.text.trim with _ | d <;>
          simp [analyze_sentiment, hm, hc, hp]
  · intro q hq
    by_cases hm : moderate_content env text = true
    · simp [analyze_sentiment, hm] at hq
    · rcases hc : env.complete (sentiment_prompt env text) with e | r
      · simp [analyze_sentiment, hm, hc] at hq
        rw [← hq]; norm_num
      · rcases hp : env.parseSentiment r.text.trim with _ | d
        · simp [analyze_sentiment, hm, hc, hp] at hq
          rw [← hq]; norm_num
        · simp [analyze_sentiment, hm, hc, hp] at hq
          rw [← hq]; exact calculate_cost_nonneg _ _ _
  · intro e hc hflag
    by_cases hm : moderate_content env text = true
    · simp [analyze_sentiment, hm] at hflag
    · simp [analyze_sentiment, hm, hc]
      norm_num
  · by_cases hm :
        moderate_content env ((title ++ "\n\n" ++ content).take 1000) = true
    · simp [summarize_article, hm]
      norm_num
    · rcases hc : env.complete (summary_prompt env title content) with e | r
      · simp [summarize_article, hm, hc]
        norm_num
      · rcases hp : env.parseSummary r.text.trim with _ | d
        · simp [summarize_article, hm, hc, hp]
          norm_num
        · simp [summarize_article, hm, hc, hp]
          exact calculate_cost_nonneg _ _ _
  · intro hflag
    by_cases hm :
        moderate_content env ((title ++ "\n\n" ++ content).take 1000) = true
    · simp [summarize_article, hm]
      norm_num
    · rcases hc : env.complete (summary_prompt env title content) with e | r
      · simp [summarize_article, hm, hc] at hflag
      · rcases hp : env.parseSummary r.text.trim with _ | d <;>
          simp [summarize_article, hm, hc, hp] at hflag ⊢
  · intro e hc
    by_cases hm :
        moderate_content env ((title ++ "\n\n" ++ content).take 1000) = true
    · simp [summarize_article, hm]
      norm_num
    · simp [summarize_article, hm, hc]
      norm_num
  · rcases hc : env.complete (classify_prompt env title content) with e | r
    · simp [classify_topics, hc]
      norm_num
    · rcases hp : env.parseClassify r.text.trim with _ | d
      · simp [classify_topics, hc, hp]
        norm_num
      · simp [classify_topics, hc, hp]
        exact calculate_cost_nonneg _ _ _
  · intro e hc
    simp [classify_topics, hc]
    norm_num

/-- C3 witness: with moderation passing and the completion endpoint down, the
sentiment cost key is present with value 0 and the summary cost is 0. -/
theorem C3_cost_invariant_witness :
    (analyze_sentiment env_fail "t").1.cost = some 0
    ∧ (summarize_article env_fail "t" "c").1.cost = 0 := by
  constructor
  · exact (C3_cost_invariant env_fail "t" "t" "c").2.2.1 "network unreachable"
      rfl (by decide)
  · exact (C3_cost_invariant env_fail "t" "t" "c").2.2.2.2.2.1 "network unreachable"
      rfl

/-- C4 counterexample: `classify_topics` performs no moderation call at all —
its trace holds a completion event and no moderation event even in an
environment whose moderation endpoint flags everything (last conjunct: the
very text it submits would be flagged). -/
theorem C4_counterexample :
    ((classify_topics env_flag "Title" "Content").2.any Event.isModeration) = false
    ∧ ((classify_topics env_flag "Title" "Content").2.any Event.isCompletion) = true
    ∧ moderate_content env_flag ("Title" ++ "\n\n" ++ "Content") = true :=
  ⟨by decide, by decide, by decide⟩

/-- C4 amended: the sentiment and summary sub-tasks moderate first (their first
external call is the moderation check) and, when flagged, short-circuit with
the flagged fallback without ever calling the completion endpoint; the
classification sub-task performs no moderation check and always submits its
prompt to the completion endpoint. -/
theorem C4_moderation_order (env : Env) (text title content : String) :
    ((analyze_sentiment env text).2.head? = some (Event.moderation text))
    ∧ (moderate_content env text = true →
        (analyze_sentiment env text).2 = [Event.moderation text]
        ∧ (analyze_sentiment env text).1.moderation_flagged = true
        ∧ (analyze_sentiment env text).1.cost = none)
    ∧ ((summarize_article env title content).2.head?
        = some (Event.moderation ((title ++ "\n\n" ++ content).take 1000)))
    ∧ (moderate_content env ((title ++ "\n\n" ++ content).take 1000) = true →
        (summarize_article env title content).2
            = [Event.moderation ((title ++ "\n\n" ++ content).take 1000)]
        ∧ (summarize_article env title content).1.moderation_flagged = true
        ∧ (summarize_article env title content).1.cost = 0)
    ∧ ((classify_topics env title content).2
        = [Event.completion (classify_prompt env title content)]) := by
  refine ⟨?_, ?_, ?_, ?_, ?_⟩
  · by_cases hm : moderate_content env text = true
    · simp [analyze_sentiment, hm]
    · rcases hc : env.complete (sentiment_prompt env text) with e | r
      · simp [analyze_sentiment, hm, hc]
      · rcases hp : env.parseSentiment r.text.trim with _ | d <;>
          simp [analyze_sentiment, hm, hc, hp]
  · intro hm
    refine ⟨?_, ?_, ?_⟩ <;> simp [analyze_sentiment, hm]
  · by_cases hm :
        moderate_content env ((title ++ "\n\n" ++ content).take 1000) = true
    · simp [summarize_article, hm]
    · rcases hc : env.complete (summary_prompt env title content) with e | r
      · simp [summarize_article, hm, hc]
      · rcases hp : env.parseSummary r.text.trim with _ | d <;>
          simp [summarize_article, hm, hc, hp]
  · intro hm
    refine ⟨?_, ?_, ?_⟩ <;> simp [summarize_article, hm]
    norm_num
  · rcases hc : env.complete (classify_prompt env title content) with e | r
    · simp [classify_topics, hc]
    · rcases hp : env.parseClassify r.text.trim with _ | d <;>
        simp [classify_topics, hc, hp]

/-- C4 witness: in the everything-flagged environment, the flagged sentiment
and summary sub-tasks stop after the moderation call. -/
theorem C4_moderation_order_witness :
    (analyze_sentiment env_flag "bad text").2 = [Event.moderation "bad text"]
    ∧ (summarize_article env_flag "t" "c").2
        = [Event.moderation (("t" ++ "\n\n" ++ "c").take 1000)] :=
  ⟨((C4_moderation_order env_flag "bad text" "t" "c").2.1 (by decide)).1,
   ((C4_moderation_order env_flag "bad text" "t" "c").2.2.2.1 (by decide)).1⟩

/-- C5: none of the three sub-tasks propagates a failure — the embedding is a
total function, and on a completion failure or a parse failure (the response
holds no parseable JSON block) each returns its deterministic task-specific
fallback payload with cost 0. -/
theorem C5_failure_fallbacks (env : Env) (text title content : String) :
    (∀ e, moderate_content env text = false →
        env.complete (sentiment_prompt env text) = Except.error e →
        (analyze_sentiment env text).1
          = { score := 0.0, label := "neutral", confidence := 0.0,
              reasoning := "Analysis failed: " ++ e, cost := some 0.0,
              moderation_flagged := false })
    ∧ (∀ r, moderate_content env text = false →
        env.complete (sentiment_prompt env text) = Except.ok r →
        env.parseSentiment r.text.trim = none →
        (analyze_sentiment env text).1
          = { score := 0.0, label := "neutral", confidence := 0.0,
              reasoning := "Analysis failed: No valid JSON found in response",
              cost := some 0.0, moderation_flagged := false })
    ∧ (∀ e, moderate_content env ((title ++ "\n\n" ++ content).take 1000) = false →
        env.complete (summary_prompt env title content) = Except.error e →
        (summarize_article env title content).1
          = { summary := "Summary unavailable", key_points := [], cost := 0.0,
              moderation_flagged := false })
    ∧ (∀ r, moderate_content env ((title ++ "\n\n" ++ content).take 1000) = false →
        env.complete (summary_prompt env title content) = Except.ok r →
        env.parseSummary r.text.trim = none →
        (summarize_article env title content).1
          = { summary := "Summary unavailable", key_points := [], cost := 0.0,
              moderation_flagged := false })
    ∧ (∀ e, env.complete (classify_prompt env title content) = Except.error e →
        (classify_topics env title content).1
          = { categories := ["General"],
              entities := { people := [], companies := [], locations := [],
                            events := [] },
              keywords := [], cost := 0.0 })
    ∧ (∀ r, env.complete (classify_prompt env title content) = Except.ok r →
        env.parseClassify r.text.trim = none →
        (classify_topics env title content).1
          = { categories := ["General"],
              entities := { people := [], companies := [], locations := [],
                            events := [] },
              keywords := [], cost := 0.0 }) := by
  refine ⟨?_, ?_, ?_, ?_, ?_, ?_⟩
  · intro e hm hc
    simp [analyze_sentiment, hm, hc]
  · intro r hm hc hp
    simp [analyze_sentiment, hm, hc, hp]
  · intro e hm hc
    simp [summarize_article, hm, hc]
  · intro r hm hc hp
    simp [summarize_article, hm, hc, hp]
  · intro e hc
    simp [classify_topics, hc]
  · intro r hc hp
    simp [classify_topics, hc, hp]

/-- C5 witness: with moderation passing and the completion endpoint down, the
sentiment and classification sub-tasks return their fallback payloads. -/
theorem C5_failure_fallbacks_witness :
    (analyze_sentiment env_fail "t").1
      = { score := 0.0, label := "neutral", confidence := 0.0,
          reasoning := "Analysis failed: " ++ "network unreachable",
          cost := some 0.0, moderation_flagged := false }
    ∧ (classify_topics env_fail "t" "c").1
      = { categories := ["General"],
          entities := { people := [], companies := [], locations := [],
                        events := [] },
          keywords := [], cost := 0.0 } :=
  ⟨(C5_failure_fallbacks env_fail "t" "t" "c").1 "network unreachable"
      (by decide) rfl,
   (C5_failure_fallbacks env_fail "t" "t" "c").2.2.2.2.1 "network unreachable" rfl⟩

/-- C9: the trending score is exactly the base 0.5, plus 0.3 when the title
contains "breaking" or "urgent" case-insensitively, plus 0.2 when the absolute
sentiment score exceeds 0.7, capped at 1.0 by `min` (never wrapped); in
particular an urgency-marked title yields exactly 0.8 without the sentiment
bonus and exactly 1.0 (not 1.2) with it. -/
theorem C9_trending_formula (env : Env) (article : Article)
    (include_content : Bool) :
    (analyze_article env article include_content).trending_score
      = min (0.5
          + (if urgency (article.title.getD "") then (0.3 : ℚ) else 0)
          + (if 0.7 < |(analyze_sentiment env (article.title.getD "" ++ "\n"
                ++ choose_text article include_content)).1.score|
             then (0.2 : ℚ) else 0))
          1.0
    ∧ (analyze_article env article include_content).trending_score ≤ 1
    ∧ (urgency (article.title.getD "") = true →
        ¬ (0.7 < |(analyze_sentiment env (article.title.getD "" ++ "\n"
              ++ choose_text article include_content)).1.score|) →
        (analyze_article env article include_content).trending_score = 0.8)
    ∧ (urgency (article.title.getD "") = true →
        0.7 < |(analyze_sentiment env (article.title.getD "" ++ "\n"
              ++ choose_text article include_content)).1.score| →
        (analyze_article env article include_content).trending_score = 1) := by
  have hform : (analyze_article env article include_content).trending_score
      = min (0.5
          + (if urgency (article.title.getD "") then (0.3 : ℚ) else 0)
          + (if 0.7 < |(analyze_sentiment env (article.title.getD "" ++ "\n"
                ++ choose_text article include_content)).1.score|
             then (0.2 : ℚ) else 0))
          1.0 := rfl
  refine ⟨hform, ?_, ?_, ?_⟩
  · rw [hform]
    calc min _ (1.0 : ℚ) ≤ 1.0 := min_le_right _ _
    _ = 1 := by norm_num
  · intro hu hs
    rw [hform, if_pos hu, if_neg hs]
    norm_num
  · intro hu hs
    rw [hform, if_pos hu, if_pos hs]
    norm_num

/-- C9 witness: the uppercase "BREAKING News" title yields exactly 0.8 under a
failed (neutral) sentiment call and exactly 1.0 under a strong (0.9) one. -/
theorem C9_trending_formula_witness :
    (analyze_article env_fail art_breaking true).trending_score = 0.8
    ∧ (analyze_article env_strong art_breaking true).trending_score = 1 := by
  constructor
  · refine (C9_trending_formula env_fail art_breaking true).2.2.1 (by decide) ?_
    have hs : (analyze_sentiment env_fail (art_breaking.title.getD "" ++ "\n"
        ++ choose_text art_breaking true)).1.score = 0 := by
      simp [analyze_sentiment, moderate_content, env_fail]
      norm_num
    rw [hs]
    norm_num
  · refine (C9_trending_formula env_strong art_breaking true).2.2.2 (by decide) ?_
    have hs : (analyze_sentiment env_strong (art_breaking.title.getD "" ++ "\n"
        ++ choose_text art_breaking true)).1.score = 0.9 := by
      simp [analyze_sentiment, moderate_content, env_strong]
    rw [hs, abs_of_nonneg] <;> norm_num
end NewsIntel
